import Mathlib

/-
Verification of the Systemair Modbus integration transport layer
(custom_components/systemair_modbus/modbus.py and models/save.py),
shallowly embedded in Lean 4.

Conventions of the embedding:
- Python integers are modelled as ℤ (indices may be negative), addresses and
  register counts as ℕ.
- Python list indexing, which resolves negative indices from the end of the
  list and raises IndexError outside the resolvable range, is modelled by
  pyGet returning Option.
- Floats appearing in scale/offset/temperature arithmetic are modelled as ℚ;
  the Python round builtin (round half to even) is modelled by pyRound.
- Raised exceptions are modelled with Except; code that catches exceptions is
  modelled by matching on the Except value.
- The pymodbus device on the far side of the connection is an oracle function
  from (function code, start address, count) to an outcome.
-/

namespace SystemairModbus

/-- Register encodings, from RegisterDef.data_type in models/save.py
("int16" | "uint16" | "uint32"). -/
inductive DataType where
  | int16
  | uint16
  | uint32
deriving DecidableEq, Repr

/-- Register classes, from RegisterDef.input_type in models/save.py
("holding" | "input"). -/
inductive RegClass where
  | holding
  | input
deriving DecidableEq, Repr

/-- Embedding of RegisterDef (models/save.py): the fields of a register
definition consumed by ModbusTcpClient.read_register_map. Defaults mirror the
dataclass defaults. -/
structure RegisterDef where
  key : String
  address : ℕ
  regClass : RegClass := .holding
  dataType : DataType := .int16
  scale : ℚ := 1
  offset : ℚ := 0
  precision : Option ℕ := none
deriving DecidableEq, Repr

/-- Python list indexing: a non-negative index i resolves to position i when
i < len; a negative index i resolves to position len + i when 0 ≤ len + i;
anything else raises IndexError, modelled as none. -/
def pyGet (xs : List ℤ) (i : ℤ) : Option ℤ :=
  if 0 ≤ i then
    xs.get? i.toNat
  else if 0 ≤ i + xs.length then
    xs.get? (i + xs.length).toNat
  else
    none

/-- Embedding of ModbusTcpClient._decode_registers (modbus.py lines 345-362).
The Python body indexes `registers[idx]` (and `registers[idx + 1]` for
uint32) inside a try/except that turns any exception into None; `x & 0xFFFF`
on a Python int is `x % 65536` (result in [0, 65536)); int16 subtracts
0x10000 when the masked value is at least 0x8000; uint32 combines
addr=low word, addr+1=high word as `(hi << 16) | lo`, which for masked words
equals `hi * 65536 + lo`. -/
def decodeRegisters (registers : List ℤ) (idx : ℤ) (dataType : DataType) : Option ℤ :=
  match dataType with
  | .int16 =>
    match pyGet registers idx with
    | none => none
    | some r =>
      let val := r % 65536
      some (if 32768 ≤ val then val - 65536 else val)
  | .uint16 =>
    match pyGet registers idx with
    | none => none
    | some r => some (r % 65536)
  | .uint32 =>
    match pyGet registers idx, pyGet registers (idx + 1) with
    | some lo, some hi => some ((hi % 65536) * 65536 + lo % 65536)
    | _, _ => none

/-- Embedding of ModbusTcpClient._reg_len (modbus.py lines 364-366):
2 registers for uint32, else 1. -/
def regLen (dataType : DataType) : ℕ :=
  match dataType with
  | .uint32 => 2
  | _ => 1

/-- Loop of the batch builder in read_register_map (modbus.py lines 509-538),
processing the remaining definitions given the current open batch and its
`last_end`. The merge test is `addr == last_end` (strict contiguity) by
default and `addr <= last_end` when the profile bridges holes; on merge,
`last_end = max(last_end, addr + length)`. -/
def buildBatchesGo (bridgeHoles : Bool) :
    List RegisterDef → List RegisterDef → ℕ → List (List RegisterDef)
  | [], batch, _ => [batch]
  | d :: rest, batch, lastEnd =>
    let addr := d.address
    let length := regLen d.dataType
    let contiguous := if bridgeHoles then addr ≤ lastEnd else addr = lastEnd
    if contiguous then
      buildBatchesGo bridgeHoles rest (batch ++ [d]) (max lastEnd (addr + length))
    else
      batch :: buildBatchesGo bridgeHoles rest [d] (addr + length)

/-- Batch builder of read_register_map (modbus.py lines 509-538) on one
address-sorted group of definitions. -/
def buildBatches (bridgeHoles : Bool) (group : List RegisterDef) : List (List RegisterDef) :=
  match group with
  | [] => []
  | d :: rest => buildBatchesGo bridgeHoles rest [d] (d.address + regLen d.dataType)

/-- Loop of _split_ranges (modbus.py lines 540-549), written with explicit
fuel so that it is structurally recursive: each iteration emits a chunk of
c = min maxCount remaining registers and removes it from the remaining
count. Since every iteration removes at least one register when maxCount ≥ 1
(the caller passes maxCount = max 2 maxBatch), fuel = count covers the whole
while loop of the source; the maxCount = 0 guard is unreachable from the
call site. -/
def splitRangesGo : ℕ → ℕ → ℕ → ℕ → List (ℕ × ℕ)
  | 0, _, _, _ => []
  | _ + 1, _, 0, _ => []
  | fuel + 1, start, countRem + 1, maxCount =>
    if maxCount = 0 then []
    else
      let c := min maxCount (countRem + 1)
      (start, c) :: splitRangesGo fuel (start + c) (countRem + 1 - c) maxCount

/-- Embedding of _split_ranges (modbus.py lines 540-549): greedily cut
[start, start + count) into chunks of at most maxCount registers. -/
def splitRanges (start count maxCount : ℕ) : List (ℕ × ℕ) :=
  splitRangesGo count start count maxCount

/-- The two pymodbus read methods used by read_register_map
(modbus.py lines 566-571). -/
inductive ReadFn where
  | read_input_registers
  | read_holding_registers
deriving DecidableEq, Repr

/-- A pymodbus read response: either an error response (rr.isError() true) or
a successful response carrying a register word list. -/
inductive ReadResp where
  | errResp
  | okResp (registers : List ℤ)
deriving DecidableEq, Repr

/-- The device (plus transport) as seen through _do_read: for a function
code, start address and count it either raises (Except.error, a transport
fault) or returns a response. -/
def Device : Type := ReadFn → ℕ → ℕ → Except Unit ReadResp

/-- The `failed` test of read_register_map (modbus.py line 581): an attempt
failed when an exception was caught or the response reports an error. -/
def readFailed (attempt : Except Unit ReadResp) : Bool :=
  match attempt with
  | .ok (.okResp _) => false
  | _ => true

/-- Function-code choice of read_register_map (modbus.py lines 565-571):
holding for a logically-input group when the sticky flag is set, input for a
logically-input group otherwise, holding for a holding group. -/
def chooseFn (groupIsInput force : Bool) : ReadFn :=
  if groupIsInput && force then ReadFn.read_holding_registers
  else if groupIsInput then ReadFn.read_input_registers
  else ReadFn.read_holding_registers

/-- list(rr.registers) of a non-failed attempt; none on a failed one. -/
def respRegs (attempt : Except Unit ReadResp) : Option (List ℤ) :=
  match attempt with
  | .ok (.okResp regs) => some regs
  | _ => none

/-- One iteration of the per-range loop of read_register_map (modbus.py lines
564-613): choose the function code from the group type and the sticky
force-input-as-holding flag; issue the read with the try/except of lines
576-579 (a raised exception is caught and enters the `failed` path, line
581); on failure of an input-function read with the sticky flag unset, retry
the identical span with the holding function (lines 585-606), setting the
flag on success; any other failure abandons the span (`continue`). Returns
the new flag, the reads issued in order, and the register words when the
span succeeded. The Except layer records that no branch lets an exception
escape. -/
def runRange (device : Device) (groupIsInput force : Bool) (s c : ℕ) :
    Except Unit (Bool × List (ReadFn × ℕ × ℕ) × Option (List ℤ)) :=
  if readFailed (device (chooseFn groupIsInput force) s c) then
    if chooseFn groupIsInput force = ReadFn.read_input_registers ∧ force = false then
      if readFailed (device ReadFn.read_holding_registers s c) then
        .ok (force, [(chooseFn groupIsInput force, s, c),
          (ReadFn.read_holding_registers, s, c)], none)
      else
        .ok (true, [(chooseFn groupIsInput force, s, c),
          (ReadFn.read_holding_registers, s, c)],
          respRegs (device ReadFn.read_holding_registers s c))
    else
      .ok (force, [(chooseFn groupIsInput force, s, c)], none)
  else
    .ok (force, [(chooseFn groupIsInput force, s, c)],
      respRegs (device (chooseFn groupIsInput force) s c))

/-- The per-range loop of read_register_map over the chunk list of one batch,
threading the sticky flag and collecting the issued reads and per-range
results. -/
def runRanges (device : Device) (groupIsInput : Bool) :
    Bool → List (ℕ × ℕ) →
    Except Unit (Bool × List (ReadFn × ℕ × ℕ) × List ((ℕ × ℕ) × Option (List ℤ)))
  | force, [] => .ok (force, [], [])
  | force, (s, c) :: rest => do
    let (f1, calls1, res1) ← runRange device groupIsInput force s c
    let (f2, calls2, ress) ← runRanges device groupIsInput f1 rest
    .ok (f2, calls1 ++ calls2, ((s, c), res1) :: ress)

/-- Python round builtin on an exact rational: round half to even.
Rat.floor is the computable floor of Batteries, used so that closed
instances evaluate by rfl. -/
def pyRound (q : ℚ) : ℤ :=
  let n := q.floor
  let frac := q - n
  if frac < 1/2 then n
  else if 1/2 < frac then n + 1
  else if n % 2 = 0 then n
  else n + 1

/-- Python round(x, ndigits) on an exact rational. -/
def pyRoundDigits (q : ℚ) (n : ℕ) : ℚ :=
  (pyRound (q * 10 ^ n) : ℚ) / 10 ^ n

/-- The decode-and-store loop of read_register_map (modbus.py lines 613-642)
for one batch and one successful sub-range: skip definitions not fully
covered by the sub-range, decode at idx = addr - r_start, apply
val = raw * scale + offset with the falsy-default quirk
float(d.get("scale", 1.0) or 1.0) turning a zero scale into 1, round to
`precision` digits when given, and store under the key when the key string is
truthy (nonempty). A failed sub-range (None) contributes nothing. -/
def rangeKVs (b : List RegisterDef) (rStart rCount : ℕ) (res : Option (List ℤ)) :
    List (String × ℚ) :=
  match res with
  | none => []
  | some regs =>
    b.filterMap fun d =>
      if d.address < rStart ∨ rStart + rCount < d.address + regLen d.dataType then
        none
      else
        match decodeRegisters regs ((d.address : ℤ) - rStart) d.dataType with
        | none => none
        | some raw =>
          let scale : ℚ := if d.scale = (0 : ℚ) then 1 else d.scale
          let val := (raw : ℚ) * scale + d.offset
          let val :=
            match d.precision with
            | none => val
            | some p => pyRoundDigits val p
          if d.key = "" then none else some (d.key, val)

/-- min(int(d["address"]) for d in b) (modbus.py line 552); 0 on the empty
list, which never occurs since batches are nonempty. -/
def spanStart (b : List RegisterDef) : ℕ :=
  match b with
  | [] => 0
  | d :: rest => rest.foldl (fun m x => min m x.address) d.address

/-- max(int(d["address"]) + reg_len for d in b) (modbus.py line 553). -/
def spanEnd (b : List RegisterDef) : ℕ :=
  match b with
  | [] => 0
  | d :: rest =>
    rest.foldl (fun m x => max m (x.address + regLen x.dataType))
      (d.address + regLen d.dataType)

/-- The chunking step of read_register_map (modbus.py lines 551-562): the
whole span as one range when no maximum batch size is set, else
_split_ranges with max_count = max(2, max_batch). -/
def groupRanges (maxBatchSize : Option ℕ) (b : List RegisterDef) : List (ℕ × ℕ) :=
  let start := spanStart b
  let count := spanEnd b - start
  match maxBatchSize with
  | none => [(start, count)]
  | some mb => splitRanges start count (max 2 mb)

/-- The batch loop of read_register_map (modbus.py lines 551-642) over the
batches of one group: chunk each batch, run the chunks, decode the successful
ones, threading the sticky flag. -/
def readBatches (device : Device) (maxBatchSize : Option ℕ) (groupIsInput : Bool) :
    Bool → List (List RegisterDef) → Except Unit (Bool × List (String × ℚ))
  | force, [] => .ok (force, [])
  | force, b :: rest => do
    let ranges := groupRanges maxBatchSize b
    let (f1, _, ress) ← runRanges device groupIsInput force ranges
    let kvs := (ress.map (fun rr => rangeKVs b rr.1.1 rr.1.2 rr.2)).flatten
    let (f2, kvs2) ← readBatches device maxBatchSize groupIsInput f1 rest
    .ok (f2, kvs ++ kvs2)

/-- Gateway profile configuration, the fields read out of PROFILE_CONFIG by
ModbusTcpClient.__post_init__ (modbus.py lines 96-118). Durations are in
seconds as rationals. -/
structure ProfileConfig where
  max_batch_size : Option ℕ
  bridge_holes : Bool
  force_input_as_holding : Bool
  use_queue : Bool
  pacing_s : ℚ
  retries : ℕ
  backoff_base_s : ℚ
  connect_delay_s : ℚ
deriving DecidableEq, Repr

/-- PROFILE_CONFIG["generic"] (modbus.py lines 45-58). -/
def PROFILE_GENERIC : ProfileConfig :=
  { max_batch_size := none
    bridge_holes := true
    force_input_as_holding := false
    use_queue := false
    pacing_s := 0
    retries := 3
    backoff_base_s := 0
    connect_delay_s := 0 }

/-- PROFILE_CONFIG["save_connect"] (modbus.py lines 59-72): max_batch_size 2,
strict contiguity, forced holding reads, queue with 0.1 s pacing, 5 retries,
0.2 s backoff base, 10 s connect delay. -/
def PROFILE_SAVE_CONNECT : ProfileConfig :=
  { max_batch_size := some 2
    bridge_holes := false
    force_input_as_holding := true
    use_queue := true
    pacing_s := 1/10
    retries := 5
    backoff_base_s := 1/5
    connect_delay_s := 10 }

/-- PROFILE_CONFIG.get(self.gateway_profile, PROFILE_CONFIG[GATEWAY_PROFILE_GENERIC])
in __post_init__ (modbus.py line 99): an unknown profile string silently
falls back to the generic profile. -/
def profileFor (gatewayProfile : String) : ProfileConfig :=
  if gatewayProfile = "generic" then PROFILE_GENERIC
  else if gatewayProfile = "save_connect" then PROFILE_SAVE_CONNECT
  else PROFILE_GENERIC

/-- sorted(register_defs, key=lambda d: int(d["address"])) (modbus.py line
495); insertionSort on the non-strict address order is stable like Python
sorted. -/
def sortByAddress (defs : List RegisterDef) : List RegisterDef :=
  defs.insertionSort (fun a b => a.address ≤ b.address)

/-- Embedding of ModbusTcpClient.read_register_map (modbus.py lines 489-649):
sort by address, split into the holding and input groups, read the holding
group first and then the input group, threading the sticky
force-input-as-holding flag (`force` is its value at entry; the profile
initializes it). Returns the final flag and the accumulated key/value list;
the Except layer records whether an exception escapes to the caller. -/
def readRegisterMap (device : Device) (cfg : ProfileConfig) (force : Bool)
    (defs : List RegisterDef) : Except Unit (Bool × List (String × ℚ)) := do
  let sortedDefs := sortByAddress defs
  let holdingGroup := sortedDefs.filter (fun d => decide (d.regClass = RegClass.holding))
  let inputGroup := sortedDefs.filter (fun d => decide (d.regClass = RegClass.input))
  let (f1, kv1) ← readBatches device cfg.max_batch_size false force
    (buildBatches cfg.bridge_holes holdingGroup)
  let (f2, kv2) ← readBatches device cfg.max_batch_size true f1
    (buildBatches cfg.bridge_holes inputGroup)
  .ok (f2, kv1 ++ kv2)

/-- Outcome of _do_write as observed by write_register (modbus.py lines
651-657): the call may raise, return None, return an error response, or
return a success response. -/
inductive WriteResp where
  | noResp
  | errResp
  | okResp
deriving DecidableEq, Repr

/-- Embedding of ModbusTcpClient.write_register (modbus.py lines 651-657):
a raised exception from _do_write propagates (there is no try/except), and a
None or error response raises RuntimeError; only a success response returns
normally. -/
def writeRegister (wdevice : ℕ → ℤ → Except Unit WriteResp) (address : ℕ)
    (value : ℤ) : Except Unit Unit :=
  match wdevice address value with
  | .error e => .error e
  | .ok .noResp => .error ()
  | .ok .errResp => .error ()
  | .ok .okResp => .ok ()

/-- DEFAULT_MESSAGE_WAIT_S (modbus.py line 33): 30 ms after each request. -/
def MESSAGE_WAIT_S : ℚ := 3/100

/-- Timing state of the non-queue (generic-profile) I/O path: the instant the
io lock becomes free. After __post_init__ (modbus.py lines 96-118) the client
holds no last-write timestamp and no cooldown parameter, so this single field
is the whole timing-relevant connection state of _do_read/_do_write
(modbus.py lines 457-463 and 477-483). -/
structure IOLockState where
  lockFreeAt : ℚ
deriving DecidableEq, Repr

/-- The instant the underlying protocol call of _do_read/_do_write is issued
for a request arriving at tRequest: immediately once the io lock is free
(modbus.py lines 459-460 and 479-480); nothing else is awaited first. -/
def opIssueTime (st : IOLockState) (tRequest : ℚ) : ℚ :=
  max tRequest st.lockFreeAt

/-- State after one _do_read/_do_write on the generic path: the lock is held
for the device round-trip plus the 30 ms message wait (modbus.py lines
459-463 and 479-483), then released. -/
def opRun (st : IOLockState) (tRequest deviceDuration : ℚ) : IOLockState :=
  ⟨opIssueTime st tRequest + deviceDuration + MESSAGE_WAIT_S⟩

/-- Embedding of ModbusTcpClient.write_0_1c (modbus.py lines 659-668) up to
the register write: raw = int(round(float(temp_c) * 10.0)) clamped below at
0. -/
def write01cRaw (tempC : ℚ) : ℤ :=
  let raw := pyRound (tempC * 10)
  if raw < 0 then 0 else raw

/-- int(float(value)) in SaveModel.compute_derived._to_int: truncation toward
zero of a numeric value. -/
def toIntTrunc (q : ℚ) : ℤ :=
  if 0 ≤ q then q.floor else q.ceil

/-- SaveModel.compute_derived._to_int (models/save.py lines 257-261): a
missing (None) value raises inside int(float(...)) and yields the default. -/
def toIntOr (v : Option ℚ) (default : ℤ) : ℤ :=
  match v with
  | none => default
  | some q => toIntTrunc q

/-- The filter-related outputs of SaveModel.compute_derived. -/
structure FilterDerived where
  seconds : ℤ
  days : ℤ
  months : ℤ
  status : String
  bucket : String
deriving DecidableEq, Repr

/-- Embedding of the filter section of SaveModel.compute_derived
(models/save.py lines 257-300): seconds, alarm and warning from the decoded
map with default 0; days = seconds // 86400 and months = days // 30 only when
seconds > 0, else both 0 (Python // is floor division, Int.fdiv);
next_filter_change_status from the alarm == 1 / warning == 1 / seconds <= 0
chain; next_filter_change_bucket from seconds <= 0, days > 548, days >= 31. -/
def computeFilterDerived (data : String → Option ℚ) : FilterDerived :=
  let seconds := toIntOr (data "time_to_filter_replacement") 0
  let alarm := toIntOr (data "filter_alarm") 0
  let warning := toIntOr (data "filter_warning_alarm") 0
  let dm : ℤ × ℤ :=
    if 0 < seconds then
      let d := Int.fdiv seconds 86400
      (d, Int.fdiv d 30)
    else (0, 0)
  let days := dm.1
  let months := dm.2
  let status :=
    if alarm = 1 then "replace_filter"
    else if warning = 1 then "warning"
    else if seconds ≤ 0 then "unknown"
    else "ok"
  let bucket :=
    if seconds ≤ 0 then "unknown"
    else if 548 < days then "more_than_18_months"
    else if 31 ≤ days then "months"
    else "days"
  ⟨seconds, days, months, status, bucket⟩

/-- Modelled from the claim wording for comparison with
computeFilterDerived: days = seconds div 86400 and months = days div 30 when
seconds > 0 (else 0); status replace_filter when the alarm flag is set, else
warning when the warning flag is set, else unknown when seconds <= 0, else
ok; bucket unknown (seconds <= 0), more_than_18_months (days > 548), months
(days >= 31), or days. -/
def specFilterDerived (data : String → Option ℚ) : FilterDerived :=
  let seconds := toIntOr (data "time_to_filter_replacement") 0
  let alarm := toIntOr (data "filter_alarm") 0
  let warning := toIntOr (data "filter_warning_alarm") 0
  let days := if 0 < seconds then Int.fdiv seconds 86400 else 0
  let months := if 0 < seconds then Int.fdiv days 30 else 0
  let status :=
    if alarm = 1 then "replace_filter"
    else if warning = 1 then "warning"
    else if seconds ≤ 0 then "unknown"
    else "ok"
  let bucket :=
    if seconds ≤ 0 then "unknown"
    else if 548 < days then "more_than_18_months"
    else if 31 ≤ days then "months"
    else "days"
  ⟨seconds, days, months, status, bucket⟩

/-
Concrete fixtures used by evaluation theorems and witnesses.
-/

/-- An int16 holding register at address 10. -/
def defKeyA : RegisterDef := { key := "a", address := 10 }

/-- An int16 holding register at address 12: one unused address (11) lies
between defKeyA and defKeyB. -/
def defKeyB : RegisterDef := { key := "b", address := 12 }

/-- A uint32 holding register at address 11, exactly contiguous after
defKeyA. -/
def defU32at11 : RegisterDef := { key := "c", address := 11, dataType := .uint32 }

/-- A uint32 holding register at address 10, overlapping address 11. -/
def defU32at10 : RegisterDef := { key := "d", address := 10, dataType := .uint32 }

/-- An int16 holding register at address 11. -/
def defKeyE : RegisterDef := { key := "e", address := 11 }

/-- A device on which every read raises a transport fault. -/
def allFailDevice : Device := fun _ _ _ => .error ()

/-- A device that rejects the input function code and answers the holding
function code with a one-word response. -/
def inputFailsDevice : Device := fun fn _ _ =>
  match fn with
  | .read_input_registers => .ok .errResp
  | .read_holding_registers => .ok (.okResp [7])

/-- Decoded map of the first filter scenario: 2,000,000 seconds remaining,
no alarm and no warning flag present. -/
def filterData1 : String → Option ℚ :=
  fun k => if k = "time_to_filter_replacement" then some 2000000 else none

/-- Decoded map of the second filter scenario: 50,000,000 seconds
remaining. -/
def filterData2 : String → Option ℚ :=
  fun k => if k = "time_to_filter_replacement" then some 50000000 else none

/-
Helper lemmas.
-/

/-- The computable Batteries floor on ℚ agrees with the Mathlib floor. -/
lemma ratFloor_eq_intFloor (q : ℚ) : q.floor = ⌊q⌋ :=
  (Rat.floor_def' q).trans Rat.floor_def.symm

/-- pyRound is the identity on integer rationals. -/
lemma pyRound_intCast (n : ℤ) : pyRound (n : ℚ) = n := by
  unfold pyRound
  rw [ratFloor_eq_intFloor]
  norm_num

/-- With the sticky flag set, one range issues exactly one holding-function
read, leaves the flag set, and never raises. -/
lemma chooseFn_force_true (gi : Bool) :
    chooseFn gi true = ReadFn.read_holding_registers := by
  cases gi <;> rfl

lemma runRange_force_true (device : Device) (gi : Bool) (s c : ℕ) :
    ∃ res, runRange device gi true s c =
      .ok (true, [(ReadFn.read_holding_registers, s, c)], res) := by
  unfold runRange
  rw [chooseFn_force_true]
  by_cases hb : readFailed (device ReadFn.read_holding_registers s c) = true
  · exact ⟨none, by simp [hb]⟩
  · exact ⟨respRegs (device ReadFn.read_holding_registers s c), by simp [hb]⟩

/-- With the sticky flag set, a list of ranges issues exactly the holding
reads of the ranges in order and the flag stays set. -/
lemma runRanges_force_true (device : Device) (gi : Bool) (ranges : List (ℕ × ℕ)) :
    ∃ ress, runRanges device gi true ranges =
      .ok (true, ranges.map (fun rc => (ReadFn.read_holding_registers, rc.1, rc.2)), ress) := by
  induction ranges with
  | nil => exact ⟨[], rfl⟩
  | cons rc rest ih =>
    obtain ⟨s, c⟩ := rc
    obtain ⟨res, hr⟩ := runRange_force_true device gi s c
    obtain ⟨ress, hrs⟩ := ih
    refine ⟨((s, c), res) :: ress, ?_⟩
    simp only [runRanges, hr, hrs, bind, Except.bind]
    rfl

/-- One range never lets an exception escape: every branch of the handler
returns normally. -/
lemma runRange_ok (device : Device) (gi force : Bool) (s c : ℕ) :
    ∃ r, runRange device gi force s c = .ok r := by
  unfold runRange
  split
  · split
    · split
      · exact ⟨_, rfl⟩
      · exact ⟨_, rfl⟩
    · exact ⟨_, rfl⟩
  · exact ⟨_, rfl⟩

/-- A list of ranges never lets an exception escape. -/
lemma runRanges_ok (device : Device) (gi : Bool) (force : Bool)
    (ranges : List (ℕ × ℕ)) :
    ∃ r, runRanges device gi force ranges = .ok r := by
  induction ranges generalizing force with
  | nil => exact ⟨_, rfl⟩
  | cons rc rest ih =>
    obtain ⟨s, c⟩ := rc
    obtain ⟨⟨f1, calls1, res1⟩, hr⟩ := runRange_ok device gi force s c
    obtain ⟨⟨f2, calls2, ress⟩, hrs⟩ := ih f1
    exact ⟨(f2, calls1 ++ calls2, ((s, c), res1) :: ress), by
      simp only [runRanges, hr, hrs, bind, Except.bind]⟩

/-- The batch loop never lets an exception escape. -/
lemma readBatches_ok (device : Device) (mb : Option ℕ) (gi : Bool) (force : Bool)
    (bs : List (List RegisterDef)) :
    ∃ r, readBatches device mb gi force bs = .ok r := by
  induction bs generalizing force with
  | nil => exact ⟨_, rfl⟩
  | cons b rest ih =>
    obtain ⟨⟨f1, calls1, ress⟩, hr⟩ := runRanges_ok device gi force (groupRanges mb b)
    obtain ⟨⟨f2, kvs2⟩, hrs⟩ := ih f1
    exact ⟨(f2, (ress.map (fun rr => rangeKVs b rr.1.1 rr.1.2 rr.2)).flatten ++ kvs2), by
      simp only [readBatches, hr, hrs, bind, Except.bind]⟩

/-- read_register_map never lets an exception escape. -/
lemma readRegisterMap_ok (device : Device) (cfg : ProfileConfig) (force : Bool)
    (defs : List RegisterDef) :
    ∃ r, readRegisterMap device cfg force defs = .ok r := by
  unfold readRegisterMap
  obtain ⟨⟨f1, kv1⟩, h1⟩ := readBatches_ok device cfg.max_batch_size false force
    (buildBatches cfg.bridge_holes
      ((sortByAddress defs).filter (fun d => decide (d.regClass = RegClass.holding))))
  obtain ⟨⟨f2, kv2⟩, h2⟩ := readBatches_ok device cfg.max_batch_size true f1
    (buildBatches cfg.bridge_holes
      ((sortByAddress defs).filter (fun d => decide (d.regClass = RegClass.input))))
  exact ⟨(f2, kv1 ++ kv2), by simp only [h1, h2, bind, Except.bind]⟩

/-- On a device where every read fails, one range leaves the sticky flag
unchanged and yields no register words. -/
lemma runRange_allFail (device : Device)
    (hf : ∀ fn s c, readFailed (device fn s c) = true)
    (gi force : Bool) (s c : ℕ) :
    ∃ calls, runRange device gi force s c = .ok (force, calls, none) := by
  unfold runRange
  rw [hf, if_pos rfl, hf, if_pos rfl]
  split
  · exact ⟨_, rfl⟩
  · exact ⟨_, rfl⟩

/-- On a device where every read fails, a range list leaves the flag
unchanged and every per-range result is empty. -/
lemma runRanges_allFail (device : Device)
    (hf : ∀ fn s c, readFailed (device fn s c) = true)
    (gi force : Bool) (ranges : List (ℕ × ℕ)) :
    ∃ calls, runRanges device gi force ranges =
      .ok (force, calls, ranges.map (fun rc => (rc, none))) := by
  induction ranges with
  | nil => exact ⟨[], rfl⟩
  | cons rc rest ih =>
    obtain ⟨s, c⟩ := rc
    obtain ⟨calls1, hr⟩ := runRange_allFail device hf gi force s c
    obtain ⟨calls2, hrs⟩ := ih
    exact ⟨calls1 ++ calls2, by
      simp only [runRanges, hr, hrs, bind, Except.bind, List.map]⟩

/-- On a device where every read fails, the batch loop returns an empty
key/value list and leaves the flag unchanged. -/
lemma readBatches_allFail (device : Device)
    (hf : ∀ fn s c, readFailed (device fn s c) = true)
    (mb : Option ℕ) (gi force : Bool) (bs : List (List RegisterDef)) :
    readBatches device mb gi force bs = .ok (force, []) := by
  induction bs with
  | nil => rfl
  | cons b rest ih =>
    obtain ⟨calls, hr⟩ := runRanges_allFail device hf gi force (groupRanges mb b)
    have hkv : (((groupRanges mb b).map (fun rc => (rc, (none : Option (List ℤ)))))
        |>.map (fun rr => rangeKVs b rr.1.1 rr.1.2 rr.2)).flatten = [] := by
      induction groupRanges mb b with
      | nil => rfl
      | cons x xs ihx => simp [rangeKVs, ihx]
    simp only [readBatches, hr, ih, bind, Except.bind, hkv, List.nil_append]

/-- On a device where every read fails, read_register_map returns normally
with an empty mapping and an unchanged flag. -/
lemma readRegisterMap_allFail (device : Device)
    (hf : ∀ fn s c, readFailed (device fn s c) = true)
    (cfg : ProfileConfig) (force : Bool) (defs : List RegisterDef) :
    readRegisterMap device cfg force defs = .ok (force, []) := by
  simp [readRegisterMap, readBatches_allFail device hf, bind, Except.bind]

/-- With the sticky flag set, the batch loop keeps it set. -/
lemma readBatches_force_true (device : Device) (mb : Option ℕ) (gi : Bool)
    (bs : List (List RegisterDef)) :
    ∃ kvs, readBatches device mb gi true bs = .ok (true, kvs) := by
  induction bs with
  | nil => exact ⟨[], rfl⟩
  | cons b rest ih =>
    obtain ⟨ress, hr⟩ := runRanges_force_true device gi (groupRanges mb b)
    obtain ⟨kvs2, hrs⟩ := ih
    exact ⟨(ress.map (fun rr => rangeKVs b rr.1.1 rr.1.2 rr.2)).flatten ++ kvs2,
      by simp only [readBatches, hr, hrs, bind, Except.bind]⟩

/-
Claim theorems.
-/

lemma pyGet_natCast (xs : List ℤ) (i : ℕ) : pyGet xs (i : ℤ) = xs.get? i := by
  unfold pyGet
  rw [if_pos (Int.natCast_nonneg i)]
  simp

lemma pyGet_none_of_length_le (xs : List ℤ) (i : ℤ) (h : (xs.length : ℤ) ≤ i) :
    pyGet xs i = none := by
  unfold pyGet
  rw [if_pos (by omega)]
  rw [List.get?_eq_none]
  omega

lemma pyGet_none_of_lt_neg_length (xs : List ℤ) (i : ℤ) (h : i + xs.length < 0) :
    pyGet xs i = none := by
  unfold pyGet
  rw [if_neg (by omega), if_neg (by omega)]

/-- The int16 branch of _decode_registers is the balanced (twos-complement)
residue of the low 16 bits. -/
lemma int16_twos_complement (r : ℤ) :
    (if 32768 ≤ r % 65536 then r % 65536 - 65536 else r % 65536) =
      Int.bmod r 65536 := by
  unfold Int.bmod
  norm_num
  split <;> split <;> omega

/-- C10: constructing the transport client with a gateway-profile identifier
that is neither generic nor save_connect does not fail, and the client
adopts exactly the generic configuration: unbounded span length, gap
bridging on, input function code attempted, no queue, zero pacing, zero
backoff base, zero connect delay. -/
theorem c10_unknown_profile_falls_back_to_generic (s : String)
    (h1 : s ≠ "generic") (h2 : s ≠ "save_connect") :
    profileFor s = PROFILE_GENERIC
    ∧ (profileFor s).max_batch_size = none
    ∧ (profileFor s).bridge_holes = true
    ∧ (profileFor s).force_input_as_holding = false
    ∧ (profileFor s).use_queue = false
    ∧ (profileFor s).pacing_s = 0
    ∧ (profileFor s).backoff_base_s = 0
    ∧ (profileFor s).connect_delay_s = 0 := by
  have h : profileFor s = PROFILE_GENERIC := by
    unfold profileFor
    rw [if_neg h1, if_neg h2]
  refine ⟨h, ?_, ?_, ?_, ?_, ?_, ?_, ?_⟩ <;> rw [h] <;> rfl

/-- C5: for every word buffer and in-range index, decode interprets int16 as
the twos complement of the low 16 bits (word 0xFFFF decodes to -1), uint16
as the unsigned low 16 bits, and uint32 as two consecutive words combined
low word first (words [0x0001, 0x0002] decode to 0x00020001). -/
theorem c5_decode_encodings :
    (∀ (regs : List ℤ) (i : ℕ) (h : i < regs.length),
        decodeRegisters regs (i : ℤ) .uint16 = some (regs.get ⟨i, h⟩ % 65536)
        ∧ decodeRegisters regs (i : ℤ) .int16 = some (Int.bmod (regs.get ⟨i, h⟩) 65536))
    ∧ (∀ (regs : List ℤ) (i : ℕ) (h1 : i < regs.length) (h2 : i + 1 < regs.length),
        decodeRegisters regs (i : ℤ) .uint32 =
          some ((regs.get ⟨i + 1, h2⟩ % 65536) * 65536 + regs.get ⟨i, h1⟩ % 65536))
    ∧ decodeRegisters [0xFFFF] 0 .int16 = some (-1)
    ∧ decodeRegisters [0x0001, 0x0002] 0 .uint32 = some 0x00020001 := by
  refine ⟨?_, ?_, by decide, by decide⟩
  · intro regs i h
    have hg : pyGet regs (i : ℤ) = some (regs.get ⟨i, h⟩) := by
      rw [pyGet_natCast, List.get?_eq_get]
    constructor
    · simp [decodeRegisters, hg]
    · simp only [decodeRegisters, hg]
      rw [int16_twos_complement]
  · intro regs i h1 h2
    have hg1 : pyGet regs (i : ℤ) = some (regs.get ⟨i, h1⟩) := by
      rw [pyGet_natCast, List.get?_eq_get]
    have hg2 : pyGet regs ((i : ℤ) + 1) = some (regs.get ⟨i + 1, h2⟩) := by
      have : ((i : ℤ) + 1) = ((i + 1 : ℕ) : ℤ) := by push_cast; ring
      rw [this, pyGet_natCast, List.get?_eq_get]
    simp [decodeRegisters, hg1, hg2]

/-- Witness for C5 at concrete buffers: uint16 keeps the low word, int16 is
the balanced residue, uint32 is low word plus high word shifted. -/
theorem c5_witness :
    decodeRegisters [40000] ((0 : ℕ) : ℤ) .uint16 = some 40000
    ∧ decodeRegisters [40000] ((0 : ℕ) : ℤ) .int16 = some (-25536)
    ∧ decodeRegisters [1, 2] ((0 : ℕ) : ℤ) .uint32 = some 131073 := by
  obtain ⟨hu, hi⟩ := c5_decode_encodings.1 [40000] 0 (by decide)
  refine ⟨?_, ?_, ?_⟩
  · rw [hu]; decide
  · rw [hi]; decide
  · rw [c5_decode_encodings.2.1 [1, 2] 0 (by decide) (by decide)]; decide

/-- C6 amended: decode returns absent for every index whose required word
positions cannot be resolved by Python list indexing — a non-negative index
at or past the end of the buffer, an index below minus the length, and for
uint32 an index whose second word falls past the end — and it never raises;
a negative index within [-len, -1] resolves Python-style from the end of the
buffer and can return a value (see the counterexample). -/
theorem c6_decode_out_of_range :
    (∀ (regs : List ℤ) (i : ℤ) (dt : DataType),
        (regs.length : ℤ) ≤ i → decodeRegisters regs i dt = none)
    ∧ (∀ (regs : List ℤ) (i : ℤ) (dt : DataType),
        i + regs.length < 0 → decodeRegisters regs i dt = none)
    ∧ (∀ (regs : List ℤ) (i : ℤ),
        0 ≤ i → (regs.length : ℤ) ≤ i + 1 → decodeRegisters regs i .uint32 = none) := by
  refine ⟨?_, ?_, ?_⟩
  · intro regs i dt h
    have hg : pyGet regs i = none := pyGet_none_of_length_le regs i h
    have hg2 : pyGet regs (i + 1) = none := pyGet_none_of_length_le regs (i + 1) (by omega)
    cases dt <;> simp [decodeRegisters, hg, hg2]
  · intro regs i dt h
    have hg : pyGet regs i = none := pyGet_none_of_lt_neg_length regs i h
    cases dt <;> simp [decodeRegisters, hg]
  · intro regs i h0 h1
    have hg2 : pyGet regs (i + 1) = none := pyGet_none_of_length_le regs (i + 1) h1
    simp only [decodeRegisters, hg2]
    rcases pyGet regs i with _ | v <;> rfl

/-- C6 counterexample: the index -1 is outside the buffer positions in the
sense of the claim, yet decode resolves it Python-style to the last word and
returns a value instead of absent. -/
theorem c6_counterexample :
    decodeRegisters [5] (-1) .uint16 = some 5
    ∧ decodeRegisters [5] (-1) .uint16 ≠ none := by decide

/-- Witness for C6 at concrete out-of-range indices. -/
theorem c6_witness :
    decodeRegisters [5] 9 .uint16 = none
    ∧ decodeRegisters [5] (-7) .int16 = none
    ∧ decodeRegisters [5, 6] 1 .uint32 = none := by
  refine ⟨c6_decode_out_of_range.1 [5] 9 .uint16 (by decide),
    c6_decode_out_of_range.2.1 [5] (-7) .int16 (by decide),
    c6_decode_out_of_range.2.2 [5, 6] 1 (by decide) (by decide)⟩

/-- C7: the temperature-to-raw conversion is round(celsius * 10) clamped to
a minimum of 0; in particular 21.5 maps to 215 and -5.0 maps to 0. -/
theorem c7_temperature_to_raw :
    (∀ tempC : ℚ, write01cRaw tempC = max 0 (pyRound (tempC * 10)))
    ∧ write01cRaw (43 / 2) = 215
    ∧ write01cRaw (-5) = 0 := by
  have hmax : ∀ tempC : ℚ, write01cRaw tempC = max 0 (pyRound (tempC * 10)) := by
    intro tempC
    show (if pyRound (tempC * 10) < 0 then 0 else pyRound (tempC * 10)) =
      max 0 (pyRound (tempC * 10))
    split <;> omega
  refine ⟨hmax, ?_, ?_⟩
  · have h : ((43 : ℚ) / 2) * 10 = ((215 : ℤ) : ℚ) := by norm_num
    rw [hmax, h, pyRound_intCast]
    rfl
  · have h : ((-5 : ℚ)) * 10 = ((-50 : ℤ) : ℚ) := by norm_num
    rw [hmax, h, pyRound_intCast]
    rfl

/-- C8: the filter-remaining derivation computes days = seconds div 86400 and
months = days div 30 when seconds > 0 (else 0), classifies status as
replace_filter (alarm flag), warning (warning flag), unknown (seconds <= 0),
else ok, and buckets into unknown / more_than_18_months (days > 548) /
months (days >= 31) / days; seconds = 2,000,000 gives days 23, months 0,
bucket days, status ok; seconds = 50,000,000 gives days 578 and bucket
more_than_18_months. -/
theorem c8_filter_derivation :
    (∀ data : String → Option ℚ, computeFilterDerived data = specFilterDerived data)
    ∧ computeFilterDerived filterData1 =
        { seconds := 2000000, days := 23, months := 0, status := "ok", bucket := "days" }
    ∧ computeFilterDerived filterData2 =
        { seconds := 50000000, days := 578, months := 19, status := "ok",
          bucket := "more_than_18_months" } := by
  refine ⟨?_, by decide, by decide⟩
  intro data
  unfold computeFilterDerived specFilterDerived
  by_cases h : 0 < toIntOr (data "time_to_filter_replacement") 0 <;> simp [h]

/-- C1 counterexample: on the generic (non-queue) path with a free lock and
an instantaneous device, a write requested at time 0 holds the lock until
0.03 (device call plus the 30 ms message wait); a read requested at 0.1 is
issued at exactly 0.1, not delayed to 1.2 as a 1.2 s post-write cooldown
would require. -/
theorem c1_counterexample :
    opIssueTime (opRun ⟨0⟩ 0 0) (1 / 10) = 1 / 10
    ∧ ¬ (6 / 5 ≤ opIssueTime (opRun ⟨0⟩ 0 0) (1 / 10 : ℚ)) := by
  have hst : opRun ⟨0⟩ 0 0 = ⟨3 / 100⟩ := by
    unfold opRun opIssueTime MESSAGE_WAIT_S
    norm_num
  have hle : ((3 : ℚ) / 100) ≤ 1 / 10 := by norm_num
  constructor
  · rw [hst]
    unfold opIssueTime
    exact max_eq_left hle
  · rw [hst]
    unfold opIssueTime
    rw [max_eq_left hle]
    norm_num

/-- C1 amended: the client state after construction carries no last-write
timestamp and no profile has a post-write cooldown; after a write, the only
thing a subsequent read waits for is the io lock, which the write holds for
its device round-trip plus the fixed 30 ms message wait, and a read
requested once the lock is free is issued at its request time. -/
theorem c1_no_post_write_cooldown :
    (∀ (st : IOLockState) (tW dev tR : ℚ),
        opIssueTime (opRun st tW dev) tR =
          max tR (opIssueTime st tW + dev + MESSAGE_WAIT_S))
    ∧ (∀ (st1 : IOLockState) (tR : ℚ),
        st1.lockFreeAt ≤ tR → opIssueTime st1 tR = tR) := by
  constructor
  · intro st tW dev tR
    rfl
  · intro st1 tR h
    exact max_eq_left h

/-- Witness for C1 at a concrete lock state: a read requested exactly when
the lock frees is issued immediately. -/
theorem c1_witness :
    (IOLockState.mk 0).lockFreeAt ≤ (0 : ℚ)
    ∧ opIssueTime ⟨0⟩ (0 : ℚ) = 0 :=
  ⟨le_refl 0, c1_no_post_write_cooldown.2 ⟨0⟩ 0 (le_refl 0)⟩

/-- C2: when the sticky force-input-as-holding flag is unset and an
input-class read fails with the input function code while the immediate
holding retry of the identical span succeeds, the flag becomes set and the
span succeeds with the fallback data; if the fallback also fails the span is
abandoned (result absent) without raising; once the flag is set, every
input-class range issues exactly one holding read — the input function code
is never attempted again — the flag stays set, and a whole poll entered with
the flag set returns with it still set. -/
theorem c2_sticky_input_fallback :
    (∀ (device : Device) (s c : ℕ) (regs : List ℤ),
        readFailed (device ReadFn.read_input_registers s c) = true →
        device ReadFn.read_holding_registers s c = .ok (.okResp regs) →
        runRange device true false s c =
          .ok (true, [(ReadFn.read_input_registers, s, c),
            (ReadFn.read_holding_registers, s, c)], some regs))
    ∧ (∀ (device : Device) (s c : ℕ),
        readFailed (device ReadFn.read_input_registers s c) = true →
        readFailed (device ReadFn.read_holding_registers s c) = true →
        runRange device true false s c =
          .ok (false, [(ReadFn.read_input_registers, s, c),
            (ReadFn.read_holding_registers, s, c)], none))
    ∧ (∀ (device : Device) (ranges : List (ℕ × ℕ)) r,
        runRanges device true true ranges = .ok r →
        r.1 = true ∧ ∀ fc ∈ r.2.1, fc.1 = ReadFn.read_holding_registers)
    ∧ (∀ (device : Device) (gi : Bool) (ranges : List (ℕ × ℕ)) r,
        runRanges device gi true ranges = .ok r → r.1 = true)
    ∧ (∀ (device : Device) (cfg : ProfileConfig) (defs : List RegisterDef),
        ∃ kvs, readRegisterMap device cfg true defs = .ok (true, kvs)) := by
  have hc : chooseFn true false = ReadFn.read_input_registers := rfl
  refine ⟨?_, ?_, ?_, ?_, ?_⟩
  · intro device s c regs hi hh
    have hf2 : readFailed (device ReadFn.read_holding_registers s c) = false := by
      rw [hh]; rfl
    unfold runRange
    rw [hc, hi, if_pos rfl, if_pos ⟨rfl, rfl⟩, hf2, if_neg Bool.false_ne_true, hh]
    rfl
  · intro device s c hi hh2
    unfold runRange
    rw [hc, hi, if_pos rfl, if_pos ⟨rfl, rfl⟩, hh2, if_pos rfl]
  · intro device ranges r h
    obtain ⟨ress, h2⟩ := runRanges_force_true device true ranges
    rw [h] at h2
    obtain rfl := Except.ok.inj h2
    refine ⟨rfl, ?_⟩
    intro fc hfc
    simp only [List.mem_map] at hfc
    obtain ⟨rc, _, rfl⟩ := hfc
    rfl
  · intro device gi ranges r h
    obtain ⟨ress, h2⟩ := runRanges_force_true device gi ranges
    rw [h] at h2
    obtain rfl := Except.ok.inj h2
    rfl
  · intro device cfg defs
    obtain ⟨kv1, h1⟩ := readBatches_force_true device cfg.max_batch_size false
      (buildBatches cfg.bridge_holes
        ((sortByAddress defs).filter (fun d => decide (d.regClass = RegClass.holding))))
    obtain ⟨kv2, h2⟩ := readBatches_force_true device cfg.max_batch_size true
      (buildBatches cfg.bridge_holes
        ((sortByAddress defs).filter (fun d => decide (d.regClass = RegClass.input))))
    exact ⟨kv1 ++ kv2, by simp only [readRegisterMap, h1, h2, bind, Except.bind]⟩

/-- Witness for C2 on a device that rejects the input function code and
accepts the holding one. -/
theorem c2_witness :
    readFailed (inputFailsDevice ReadFn.read_input_registers 3 1) = true
    ∧ inputFailsDevice ReadFn.read_holding_registers 3 1 = .ok (.okResp [7])
    ∧ runRange inputFailsDevice true false 3 1 =
        .ok (true, [(ReadFn.read_input_registers, 3, 1),
          (ReadFn.read_holding_registers, 3, 1)], some [7]) :=
  ⟨rfl, rfl, c2_sticky_input_fallback.1 inputFailsDevice 3 1 [7] rfl rfl⟩

/-- C9: read failures never escape read_register_map — it always returns a
(possibly partial) mapping, a failed span contributes no keys, and on a
device where every read fails the whole poll still returns normally with an
empty mapping and an unchanged flag — while write_register fails back to the
caller exactly when the write is not a success response (raised transport
fault, missing response, or error response). -/
theorem c9_error_propagation :
    (∀ (device : Device) (cfg : ProfileConfig) (force : Bool)
        (defs : List RegisterDef),
        ∃ r, readRegisterMap device cfg force defs = .ok r)
    ∧ (∀ (b : List RegisterDef) (s c : ℕ), rangeKVs b s c none = [])
    ∧ (∀ device : Device, (∀ fn s c, readFailed (device fn s c) = true) →
        ∀ (cfg : ProfileConfig) (force : Bool) (defs : List RegisterDef),
          readRegisterMap device cfg force defs = .ok (force, []))
    ∧ (∀ (wdevice : ℕ → ℤ → Except Unit WriteResp) (a : ℕ) (v : ℤ),
        writeRegister wdevice a v = .ok () ↔ wdevice a v = .ok .okResp) := by
  refine ⟨readRegisterMap_ok, fun _ _ _ => rfl, ?_, ?_⟩
  · intro device hf cfg force defs
    exact readRegisterMap_allFail device hf cfg force defs
  · intro wdevice a v
    rcases h : wdevice a v with e | w
    · simp [writeRegister, h]
    · cases w <;> simp [writeRegister, h]

/-- Witness for C9 on the always-failing device with a one-entry register
list. -/
theorem c9_witness :
    readRegisterMap allFailDevice PROFILE_GENERIC false [defKeyA] = .ok (false, []) :=
  c9_error_propagation.2.2.1 allFailDevice (fun _ _ _ => rfl) PROFILE_GENERIC false [defKeyA]

/-- C3 evaluation: the generic-profile merge test addr <= last_end merges
nothing that strict contiguity does not, except overlaps; two int16
definitions at addresses 10 and 12 (a one-address gap) land in separate
spans under BOTH profiles, contradicting the claim that the generic profile
bridges the gap; the only extra merging the generic profile performs is for
overlapping definitions (uint32 at 10 with int16 at 11). -/
theorem c3_generic_profile_never_bridges_gap :
    buildBatches PROFILE_GENERIC.bridge_holes [defKeyA, defKeyB] = [[defKeyA], [defKeyB]]
    ∧ buildBatches PROFILE_SAVE_CONNECT.bridge_holes [defKeyA, defKeyB] =
        [[defKeyA], [defKeyB]]
    ∧ buildBatches PROFILE_GENERIC.bridge_holes [defU32at10, defKeyE] =
        [[defU32at10, defKeyE]]
    ∧ buildBatches PROFILE_SAVE_CONNECT.bridge_holes [defU32at10, defKeyE] =
        [[defU32at10], [defKeyE]] := by decide

/-- C4 evaluation: under the safe profile, an int16 at address 10 followed by
a contiguous uint32 at address 11 forms one span [10, 13) which the chunker
cuts into (10, 2) and (12, 1); the uint32 lies inside neither chunk, so its
key is dropped from every chunk contribution — a 2-register value IS split
across chunks, contradicting the claim. -/
theorem c4_uint32_split_across_chunks :
    buildBatches PROFILE_SAVE_CONNECT.bridge_holes [defKeyA, defU32at11] =
      [[defKeyA, defU32at11]]
    ∧ groupRanges PROFILE_SAVE_CONNECT.max_batch_size [defKeyA, defU32at11] =
        [(10, 2), (12, 1)]
    ∧ (∀ r ∈ groupRanges PROFILE_SAVE_CONNECT.max_batch_size [defKeyA, defU32at11],
        ¬ (r.1 ≤ defU32at11.address
            ∧ defU32at11.address + regLen defU32at11.dataType ≤ r.1 + r.2))
    ∧ (∀ (res : Option (List ℤ)) (r : ℕ × ℕ),
        r ∈ groupRanges PROFILE_SAVE_CONNECT.max_batch_size [defKeyA, defU32at11] →
        "c" ∉ (rangeKVs [defKeyA, defU32at11] r.1 r.2 res).map Prod.fst) := by
  refine ⟨by decide, by decide, by decide, ?_⟩
  intro res r hr
  have hgr : groupRanges PROFILE_SAVE_CONNECT.max_batch_size [defKeyA, defU32at11] =
      [(10, 2), (12, 1)] := by decide
  rw [hgr] at hr
  simp only [List.mem_cons, List.mem_singleton, List.not_mem_nil, or_false] at hr
  have hr2 : r = (10, 2) ∨ r = (12, 1) := hr
  rcases hr2 with rfl | rfl
  · cases res with
    | none => simp [rangeKVs]
    | some regs =>
      simp [rangeKVs, defKeyA, defU32at11, regLen]
      rcases decodeRegisters regs 0 DataType.int16 with _ | v <;> simp
  · cases res with
    | none => simp [rangeKVs]
    | some regs => simp [rangeKVs, defKeyA, defU32at11, regLen]

/-- Witness for C4 at the first chunk with a concrete successful response:
the uint32 key is absent from the chunk contribution. -/
theorem c4_witness :
    ((10, 2) ∈ groupRanges PROFILE_SAVE_CONNECT.max_batch_size [defKeyA, defU32at11])
    ∧ "c" ∉ (rangeKVs [defKeyA, defU32at11] 10 2 (some [1, 2])).map Prod.fst :=
  ⟨by decide, c4_uint32_split_across_chunks.2.2.2 (some [1, 2]) (10, 2) (by decide)⟩

/-- Witness for C10 at the concrete unknown profile string "ew11". -/
theorem c10_witness :
    ("ew11" ≠ "generic") ∧ ("ew11" ≠ "save_connect")
    ∧ profileFor "ew11" = PROFILE_GENERIC := by
  refine ⟨by decide, by decide, ?_⟩
  exact (c10_unknown_profile_falls_back_to_generic "ew11" (by decide) (by decide)).1

end SystemairModbus
